import Mathlib

/-!
Verification development for the ez2source client-side asset layer.

This file gives a shallow embedding, in Lean, of the parts of the
repository's JavaScript that the specification talks about:

* the location autocomplete of `src/unnamed/part_003`
  (`initializeCountryAutocomplete`, `initializeCityAutocomplete`,
  `showDropdown` and its suggestion click handler);
* the debug location autocomplete bundled in `src/modal-fix.js`
  (`showDropdownWithDebug`);
* the interview topic/difficulty autocomplete of
  `src/interview-autocomplete.js` (`InterviewAutocomplete.showSuggestions`);
* the `ModalManager` class of `src/modal-fix.js` (`initializeModals`,
  `attachEventListeners`, `show`, `hide`, `cleanup`);
* the emergency modal fix of `src/unnamed/part_000` (trigger click
  handler and `closeModal`);
* the debounce combinator `InterviewApp.utils.debounce` and the two
  `InterviewApp.utils.formatTime` implementations
  (`src/main-fixed.js` and `src/unnamed/part_002`);
* the activation behaviour of the three service workers
  (Job2Hire in `src/unnamed/part_003`, EZ2Hire candidate in
  `src/sw-candidate.js`, EZ2Hire recruiter in `src/unnamed/part_003`).

DOM values are modelled by their observable content: input values are
strings, the suggestion dropdown is a view (hidden, or shown with an
ordered item list), registries are association lists in insertion
order, and backdrop nodes are counted.
-/

set_option autoImplicit false

namespace Ez2source

/-! ### String primitives

Models of the JavaScript string operations used by the autocomplete
code: `String.prototype.includes` (contiguous substring test) and
`String.prototype.toLowerCase` (Lean `String.toLower`, which lowers
character-wise exactly as the ASCII data in the repository needs). -/

/-- Tests whether `needle` occurs at the start of `hay` (character lists). -/
def leadsChars : List Char → List Char → Bool
  | [], _ => true
  | _ :: _, [] => false
  | a :: as, b :: bs => a == b && leadsChars as bs

/-- Tests whether `needle` occurs contiguously somewhere in `hay`. -/
def hasSubChars (needle : List Char) : List Char → Bool
  | [] => needle.isEmpty
  | c :: rest => leadsChars needle (c :: rest) || hasSubChars needle rest

/-- Model of JavaScript `hay.includes(needle)` on strings. -/
def strIncludes (hay needle : String) : Bool :=
  hasSubChars needle.data hay.data

/-- Model of JavaScript `s.toLowerCase()`: lower each character. This
is `String.toLower` written directly on the character list so that it
reduces by computation. -/
def strToLower (s : String) : String :=
  String.mk (s.data.map Char.toLower)

/-! ### Typeahead matching and dropdown views -/

/-- Observable state of a suggestion dropdown: either hidden
(`display: none`) or shown with an ordered list of rendered items. -/
inductive DropdownView where
  | hidden
  | shown (items : List String)
deriving DecidableEq

/-- Matching of the location autocomplete in `src/unnamed/part_003`
(country handler, lines 73-77, and city handler, lines 115-117):
`cands.filter(c => c.toLowerCase().includes(query)).slice(0, 10)`,
where `query` is the already-lowercased input value. -/
def locationMatches (cands : List String) (query : String) : List String :=
  (cands.filter (fun c => strIncludes (strToLower c) query)).take 10

/-- Dropdown view computed by one run of the `input` handler of
`initializeCountryAutocomplete` (`src/unnamed/part_003`, lines 57-78):
the handler lowercases the value, hides the dropdown when the query is
shorter than 2 characters, and otherwise calls `showDropdown` with the
matches, which hides the dropdown when there are no matches and shows
the match items otherwise. -/
def countryInputView (cands : List String) (value : String) : DropdownView :=
  let query := strToLower value
  if query.length < 2 then DropdownView.hidden
  else
    match locationMatches cands query with
    | [] => DropdownView.hidden
    | ms => DropdownView.shown ms

/-- First-match lookup in an association list, as JavaScript property
access on an object literal with string keys (insertion order). -/
def alistLookup {β : Type} : List (String × β) → String → Option β
  | [], _ => none
  | (k, v) :: rest, key => if k == key then some v else alistLookup rest key

/-- Model of `Object.values(citiesByCountry).flat()`
(`src/unnamed/part_003`, line 112): the concatenation of all the
per-country city lists, in key insertion order. -/
def allCities (ctb : List (String × List String)) : List String :=
  ctb.foldr (fun p acc => p.2 ++ acc) []

/-- Property names every plain JavaScript object literal inherits from
`Object.prototype`, as standardized: bracket access with one of these
keys on `citiesByCountry` does not yield `undefined` even though the
key is not an own key of the literal. -/
def objectProtoProps : List String :=
  ["constructor", "hasOwnProperty", "isPrototypeOf", "propertyIsEnumerable",
   "toLocaleString", "toString", "valueOf", "__proto__",
   "__defineGetter__", "__defineSetter__", "__lookupGetter__", "__lookupSetter__"]

/-- Value produced by JavaScript bracket access on the
`citiesByCountry` object literal: an own property (one of the stored
city arrays), an inherited `Object.prototype` member (a function, or
`Object.prototype` itself for `__proto__` — in either case not an
array), or `undefined`. -/
inductive JsPropValue where
  | arr (cities : List String)
  | protoMember
  | undef
deriving DecidableEq

/-- JavaScript `citiesByCountry[key]`: the own property when `key` is
a key of the literal, the inherited member when `key` names an
`Object.prototype` property, `undefined` otherwise. -/
def jsGetProp (ctb : List (String × List String)) (key : String) : JsPropValue :=
  match alistLookup ctb key with
  | some cs => JsPropValue.arr cs
  | none =>
      if key ∈ objectProtoProps then JsPropValue.protoMember else JsPropValue.undef

/-- JavaScript truthiness of the accessed value: arrays and all
inherited `Object.prototype` members (functions/objects) are truthy;
`undefined` is falsy. -/
def JsPropValue.truthy : JsPropValue → Bool
  | JsPropValue.arr _ => true
  | JsPropValue.protoMember => true
  | JsPropValue.undef => false

/-- Outcome of the city-candidate computation of the handler: the
array reaching `cities.filter`, or the `TypeError` thrown there when
`cities` is not an array. -/
inductive CityCandidatesResult where
  | ok (cities : List String)
  | typeError
deriving DecidableEq

/-- Faithful model of `src/unnamed/part_003`, lines 104-117, up to and
including the `cities.filter(...)` call. The condition
`selectedCountry && citiesByCountry[selectedCountry]` is truthy when
the string is nonempty and the bracket access yields a truthy value —
which includes inherited `Object.prototype` members for keys such as
`"constructor"` — in which case `cities` is that value; otherwise
`cities = Object.values(citiesByCountry).flat()`. The subsequent
`cities.filter` succeeds when `cities` is an array and throws
`TypeError` when it is an inherited member (no `filter` method). -/
def cityCandidatesRun (ctb : List (String × List String)) (selectedCountry : String) :
    CityCandidatesResult :=
  let v := jsGetProp ctb selectedCountry
  if selectedCountry != "" && v.truthy then
    match v with
    | JsPropValue.arr cs => CityCandidatesResult.ok cs
    | _ => CityCandidatesResult.typeError
  else CityCandidatesResult.ok (allCities ctb)

/-- Candidate list reaching `cities.filter` on the runs of the city
input handler that do not throw: the country's own city list when the
nonempty country value is a key of the map, the all-cities fallback
otherwise. This is the no-throw projection of `cityCandidatesRun`,
which also covers the `TypeError` path taken for inherited
`Object.prototype` property names. -/
def cityCandidates (ctb : List (String × List String)) (selectedCountry : String) :
    List String :=
  match (if selectedCountry == "" then none else alistLookup ctb selectedCountry) with
  | some cs => cs
  | none => allCities ctb

/-- Dropdown view computed by one run of the `input` handler of
`initializeCityAutocomplete` (`src/unnamed/part_003`, lines 91-120),
on runs where the candidate computation does not throw (the
`query.length < 2` branch returns before any lookup, exactly as in the
source, so it is unaffected by the throwing path). -/
def cityInputView (ctb : List (String × List String))
    (countryValue cityValue : String) : DropdownView :=
  let query := strToLower cityValue
  if query.length < 2 then DropdownView.hidden
  else
    match locationMatches (cityCandidates ctb countryValue) query with
    | [] => DropdownView.hidden
    | ms => DropdownView.shown ms

/-- Filtered list of `InterviewAutocomplete.showSuggestions`
(`src/interview-autocomplete.js`, lines 98-100):
`suggestions.filter(item => item.toLowerCase().includes(value))` with
`value` the lowercased input value. There is no `.slice(0, 10)` here. -/
def interviewFiltered (suggestions : List String) (rawValue : String) : List String :=
  let value := strToLower rawValue
  suggestions.filter (fun item => strIncludes (strToLower item) value)

/-- Dropdown view computed by `InterviewAutocomplete.showSuggestions`
(`src/interview-autocomplete.js`, lines 90-139): hidden when the
lowercased value is falsy (that is, the empty string) or when the
filtered list is empty; otherwise shown with all filtered items. -/
def interviewView (suggestions : List String) (rawValue : String) : DropdownView :=
  let value := strToLower rawValue
  if value == "" then DropdownView.hidden
  else
    match interviewFiltered suggestions rawValue with
    | [] => DropdownView.hidden
    | fs => DropdownView.shown fs

/-- Modelled from the spec's words (for comparison with the code):
"candidates whose lowercase form contains the lowercase query,
case-insensitive substring match, preserving candidate list order;
truncate to the first 10 matches". -/
def specMatches (cands : List String) (query : String) : List String :=
  (cands.filter (fun c => strIncludes (strToLower c) (strToLower query))).take 10

/-! ### Country/city form state and suggestion selection -/

/-- Observable state of one country/city form: the two input values,
the module-level `currentCountry`/`currentCity` globals of
`src/unnamed/part_003`, and whether the country suggestion list is open.
The debug script in `src/modal-fix.js` does not define or update the
two globals, so its handler leaves those fields untouched. -/
structure LocationFormState where
  countryValue : String
  cityValue : String
  currentCountry : String
  currentCity : String
  countryListOpen : Bool
deriving DecidableEq

/-- Suggestion click handler of `showDropdown` in `src/unnamed/part_003`
(lines 208-222), `type === 'country'` branch, with the city input
present in the form: commit the match into the country input, update
`currentCountry`, clear the city input and `currentCity`, and hide the
dropdown. -/
def selectCountrySuggestion (st : LocationFormState) (m : String) : LocationFormState :=
  { st with
      countryValue := m
      currentCountry := m
      cityValue := ""
      currentCity := ""
      countryListOpen := false }

/-- Suggestion click handler of `showDropdownWithDebug` in
`src/modal-fix.js` (lines 448-452): commit the match into the input and
hide the dropdown. No other field is written; in particular the city
input keeps its value. -/
def selectCountrySuggestionDebug (st : LocationFormState) (m : String) :
    LocationFormState :=
  { st with
      countryValue := m
      countryListOpen := false }

/-! ### Debounce combinator and raw input handlers -/

/-- Events processed by a debounced function: an invocation of the
wrapper with arguments `a`, or the expiry of the pending timer. -/
inductive DebounceEvent (α : Type) where
  | call (a : α)
  | timerFire

/-- Model of `InterviewApp.utils.debounce` (`src/main-fixed.js`,
lines 33-43). The state is the pending timer's captured arguments
(`none` when no timer is pending). Each call clears the pending timer
and schedules a new one capturing its own arguments; when the timer
fires, the wrapped function runs once with the captured arguments.
The result lists the arguments of the executed invocations, in order. -/
def debounceFired {α : Type} : List (DebounceEvent α) → Option α → List α
  | [], _ => []
  | DebounceEvent.call a :: es, _ => debounceFired es (some a)
  | DebounceEvent.timerFire :: es, pending => pending.toList ++ debounceFired es none

/-- The country `input` handler of `src/unnamed/part_003` (lines 57-78)
is registered directly on the input, not wrapped in
`InterviewApp.utils.debounce`: each input event immediately runs one
matching/render pass. Given the value carried by each event, this
returns the view rendered by each pass. -/
def countryRenderPasses (cands : List String) (values : List String) :
    List DropdownView :=
  values.map (fun v => countryInputView cands v)

/-! ### ModalManager (`src/modal-fix.js`) -/

/-- The event listeners that `ModalManager.attachEventListeners`
(`src/modal-fix.js`, lines 74-137) adds to a modal element itself,
recorded as (element id, event type) pairs: three touch listeners,
the backdrop-click listener, the escape-key listener and the
`hidden.bs.modal` cleanup listener. (The handlers it additionally adds
to close buttons and to every descendant depend on the element's
subtree and only add further pairs of the same kind.) -/
def modalListeners (id : String) : List (String × String) :=
  [(id, "touchstart"), (id, "touchmove"), (id, "touchend"),
   (id, "click"), (id, "keydown"), (id, "hidden.bs.modal")]

/-- Observable state of the `ModalManager` and the DOM it touches:
the `this.modals` registry (id to open flag, insertion order; the
Bootstrap instance is abstracted to its open flag), the listeners
attached to modal DOM elements, the number of backdrop nodes, the
`modal-open` class on the body, and the warnings logged so far. -/
structure ManagerState where
  modals : List (String × Bool)
  listeners : List (String × String)
  backdrops : Nat
  bodyModalOpen : Bool
  warnings : List String
deriving DecidableEq

/-- JavaScript `Map.prototype.set`: overwrite in place when the key is
present, append otherwise. -/
def mapSet (m : List (String × Bool)) (k : String) (v : Bool) : List (String × Bool) :=
  if (alistLookup m k).isSome then
    m.map (fun p => if p.1 == k then (k, v) else p)
  else m ++ [(k, v)]

/-- `ModalManager.cleanup` (`src/modal-fix.js`, lines 155-174): dispose
every registered instance and clear the registry, remove every
lingering backdrop, and reset the body styles. The listeners that
`attachEventListeners` added to the DOM elements are not removed. -/
def cleanupManager (st : ManagerState) : ManagerState :=
  { st with
      modals := []
      backdrops := 0
      bodyModalOpen := false }

/-- One iteration of the `initializeModals` loop for a modal element
(`src/modal-fix.js`, lines 28-47): construct the instance, store it in
the registry under the element's id (closed), and attach the event
listeners. (Construction failures of the Bootstrap primitive are
external; the model takes the successful path.) -/
def registerModal (st : ManagerState) (id : String) : ManagerState :=
  { st with
      modals := mapSet st.modals id false
      listeners := st.listeners ++ modalListeners id }

/-- `ModalManager.initializeModals` (`src/modal-fix.js`, lines 21-48):
clean up the previous registration, then register every modal element
found in the document (given here by its id list, in document order). -/
def initializeModals (ids : List String) (st : ManagerState) : ManagerState :=
  ids.foldl registerModal (cleanupManager st)

/-- `ModalManager.show` (`src/modal-fix.js`, lines 139-146): if the id
is registered, delegate to the instance's `show` (abstracted to setting
the open flag); otherwise log the warning and do nothing else. -/
def mmShow (st : ManagerState) (id : String) : ManagerState :=
  match alistLookup st.modals id with
  | some _ => { st with modals := mapSet st.modals id true }
  | none => { st with warnings := st.warnings ++ ["Modal not found: " ++ id] }

/-- `ModalManager.hide` (`src/modal-fix.js`, lines 148-153): if the id
is registered, delegate to the instance's `hide`; otherwise do nothing
(no warning in this branch). -/
def mmHide (st : ManagerState) (id : String) : ManagerState :=
  match alistLookup st.modals id with
  | some _ => { st with modals := mapSet st.modals id false }
  | none => st

/-- Listeners attached by one full registration scan over `ids`. -/
def allModalListeners (ids : List String) : List (String × String) :=
  ids.foldr (fun i acc => modalListeners i ++ acc) []

/-- Registry contents produced by folding `Map.set` over `ids`. -/
def buildModals (ids : List String) (m : List (String × Bool)) : List (String × Bool) :=
  ids.foldl (fun acc i => mapSet acc i false) m

/-- An empty page state: nothing registered, no listeners, no backdrop. -/
def managerInit : ManagerState :=
  { modals := []
    listeners := []
    backdrops := 0
    bodyModalOpen := false
    warnings := [] }

/-! ### Emergency modal fix (`src/unnamed/part_000`, lines 599-663) -/

/-- Observable state of the emergency modal fix for one modal: whether
the modal carries the `show` class, the number of `.modal-backdrop`
nodes in the document, and the `modal-open` class on the body. -/
structure EmergencyState where
  modalShown : Bool
  backdrops : Nat
  bodyModalOpen : Bool
deriving DecidableEq

/-- Dismissal and opening events handled by the emergency fix: a click
on a modal trigger, a click on a close control, a click on the backdrop
itself, and the escape key. -/
inductive EmergencyOp where
  | triggerClick
  | closeClick
  | backdropClick
  | escapeKey
deriving DecidableEq

/-- `closeModal` (`src/unnamed/part_000`, lines 648-663): hide the
modal, remove the first `.modal-backdrop` node if one exists
(`document.querySelector` returns only the first match), and reset the
body. -/
def emergencyClose (st : EmergencyState) : EmergencyState :=
  { modalShown := false
    backdrops := st.backdrops - 1
    bodyModalOpen := false }

/-- One step of the emergency fix. A trigger click (lines 600-645)
unconditionally shows the modal, appends a fresh backdrop node to the
body, and marks the body `modal-open`; it does not check whether the
modal is already shown or a backdrop already exists. The three
dismissal paths call `closeModal`, guarded as in the source: the close
controls and the backdrop are only clickable while shown/present, and
the escape listener checks `classList.contains('show')`. -/
def emergencyStep (st : EmergencyState) : EmergencyOp → EmergencyState
  | EmergencyOp.triggerClick =>
      { modalShown := true
        backdrops := st.backdrops + 1
        bodyModalOpen := true }
  | EmergencyOp.closeClick => if st.modalShown then emergencyClose st else st
  | EmergencyOp.backdropClick => if st.backdrops ≠ 0 then emergencyClose st else st
  | EmergencyOp.escapeKey => if st.modalShown then emergencyClose st else st

/-- Page-load state after the initial cleanup of the emergency fix
(lines 589-596): no backdrop, body reset, modal hidden. -/
def emergencyInit : EmergencyState :=
  { modalShown := false
    backdrops := 0
    bodyModalOpen := false }

/-- Run a sequence of user operations from the initial state. -/
def emergencyRun (ops : List EmergencyOp) : EmergencyState :=
  ops.foldl emergencyStep emergencyInit

/-! ### Service worker activation -/

/-- `CACHE_NAME` of the Job2Hire service worker
(`src/unnamed/part_003`, line 301). -/
def job2hireCacheName : String := "job2hire-v1.0.0"

/-- `CACHE_NAME` of the EZ2Hire candidate service worker
(`src/sw-candidate.js`, line 2). -/
def candidateCacheName : String := "ez2hire-candidate-v1.0"

/-- `CACHE_NAME` of the EZ2Hire recruiter service worker
(`src/unnamed/part_003`, line 435). -/
def recruiterCacheName : String := "ez2hire-recruiter-v1.0"

/-- The `activate` handler of the Job2Hire service worker
(`src/unnamed/part_003`, lines 338-352): every cache store whose name
differs from `CACHE_NAME` is deleted, so exactly the stores named
`CACHE_NAME` survive. -/
def job2hireActivateHandler (cacheNames : List String) : List String :=
  cacheNames.filter (fun n => n == job2hireCacheName)

/-- Activation dispatch: run every registered `activate` listener, in
registration order, on the set of existing cache store names. -/
def runActivate (handlers : List (List String → List String))
    (cacheNames : List String) : List String :=
  handlers.foldl (fun cs h => h cs) cacheNames

/-- Activate listeners registered by the Job2Hire service worker. -/
def job2hireActivateHandlers : List (List String → List String) :=
  [job2hireActivateHandler]

/-- Event types the EZ2Hire candidate service worker registers
listeners for (`src/sw-candidate.js`): there is no `activate` listener. -/
def candidateRegisteredEvents : List String :=
  ["install", "fetch", "push", "notificationclick"]

/-- Activate listeners registered by the EZ2Hire candidate service
worker (`src/sw-candidate.js`): none. -/
def candidateActivateHandlers : List (List String → List String) := []

/-- Activate listeners registered by the EZ2Hire recruiter service
worker (`src/unnamed/part_003`, lines 434-499): none. -/
def recruiterActivateHandlers : List (List String → List String) := []

/-- Cache stores surviving activation of the Job2Hire service worker. -/
def job2hireActivate (cacheNames : List String) : List String :=
  runActivate job2hireActivateHandlers cacheNames

/-- Cache stores surviving activation of the candidate service worker. -/
def candidateActivate (cacheNames : List String) : List String :=
  runActivate candidateActivateHandlers cacheNames

/-- Cache stores surviving activation of the recruiter service worker. -/
def recruiterActivate (cacheNames : List String) : List String :=
  runActivate recruiterActivateHandlers cacheNames

/-! ### formatTime (`src/main-fixed.js` and `src/unnamed/part_002`) -/

/-- Decimal digit character for `n < 10`. -/
def decDigitChar (n : Nat) : Char := Char.ofNat (48 + n)

/-- Decimal digits of `n`, most significant first, computed with a
fuel parameter so that the recursion is structural (the fuel only
needs to dominate the number of digits). -/
def decDigitsAux : Nat → Nat → List Char
  | 0, _ => []
  | fuel + 1, n =>
      if n < 10 then [decDigitChar n]
      else decDigitsAux fuel (n / 10) ++ [decDigitChar (n % 10)]

/-- Decimal representation of a natural number as a character list;
model of JavaScript `Number.prototype.toString` on non-negative
integers. `n + 1` is always enough fuel, as the digit count of `n` is
at most `n + 1`. -/
def decReprAux (n : Nat) : List Char :=
  decDigitsAux (n + 1) n

/-- Model of JavaScript `s.padStart(2, '0')`: prepend zeros up to
length 2, leave longer strings unchanged. -/
def padStart2Chars (l : List Char) : List Char :=
  if l.length < 2 then List.replicate (2 - l.length) '0' ++ l else l

/-- `InterviewApp.utils.formatTime` of `src/main-fixed.js`
(lines 48-52): both the minutes `Math.floor(seconds / 60)` and the
seconds `seconds % 60` are zero-padded to two digits. -/
def formatTimeFixedChars (seconds : Nat) : List Char :=
  padStart2Chars (decReprAux (seconds / 60)) ++ [':']
    ++ padStart2Chars (decReprAux (seconds % 60))

/-- String form of `formatTimeFixedChars`. -/
def formatTimeFixed (seconds : Nat) : String :=
  String.mk (formatTimeFixedChars seconds)

/-- `InterviewApp.utils.formatTime` of the duplicated main script
`src/unnamed/part_002` (lines 48-52): the template is
`mins + ":" + secs.toString().padStart(2, '0')`, so the minutes part is
not zero-padded. -/
def formatTimeDupChars (seconds : Nat) : List Char :=
  decReprAux (seconds / 60) ++ [':'] ++ padStart2Chars (decReprAux (seconds % 60))

/-- String form of `formatTimeDupChars`. -/
def formatTimeDup (seconds : Nat) : String :=
  String.mk (formatTimeDupChars seconds)

/-! ### Sample states used by concrete witnesses -/

/-- A page with a single registered modal and an empty log. -/
def sampleRegistry : ManagerState :=
  { modals := [("loginModal", false)]
    listeners := []
    backdrops := 0
    bodyModalOpen := false
    warnings := [] }

/-- A small cities-by-country map, with neither "Atlantis" nor
"constructor" among its keys. -/
def sampleCityMap : List (String × List String) :=
  [("United States", ["New York"]), ("Canada", ["Toronto"])]

/-- A form in which the country field holds the partial query and the
city field holds a previously chosen city. -/
def parisState : LocationFormState :=
  { countryValue := "Can"
    cityValue := "Paris"
    currentCountry := ""
    currentCity := "Paris"
    countryListOpen := true }

/-! ## Helper lemmas -/

theorem strToLower_length (s : String) : (strToLower s).length = s.length :=
  List.length_map s.data Char.toLower

theorem allCities_eq_flatten (ctb : List (String × List String)) :
    allCities ctb = (ctb.map Prod.snd).flatten := by
  induction ctb with
  | nil => rfl
  | cons p rest ih =>
      simp only [allCities, List.foldr_cons, List.map_cons, List.flatten_cons] at ih ⊢
      rw [ih]

theorem decDigitsAux_length_pos (fuel n : Nat) (h : 1 ≤ fuel) :
    1 ≤ (decDigitsAux fuel n).length := by
  cases fuel with
  | zero => omega
  | succ f =>
      simp only [decDigitsAux]
      split
      · simp
      · simp only [List.length_append, List.length_cons, List.length_nil]
        omega

theorem decReprAux_length_eq_one (n : Nat) (h : n < 10) :
    (decReprAux n).length = 1 := by
  simp [decReprAux, decDigitsAux, h]

theorem decReprAux_length_ge_two (n : Nat) (h : 10 ≤ n) :
    2 ≤ (decReprAux n).length := by
  simp only [decReprAux, decDigitsAux]
  rw [if_neg (by omega)]
  simp only [List.length_append, List.length_cons, List.length_nil]
  have hpos := decDigitsAux_length_pos n (n / 10) (by omega)
  omega

theorem padStart2Chars_length (l : List Char) :
    (padStart2Chars l).length = max 2 l.length := by
  unfold padStart2Chars
  split
  · simp only [List.length_append, List.length_replicate]
    omega
  · omega

theorem padStart2Chars_of_ge_two (l : List Char) (h : 2 ≤ l.length) :
    padStart2Chars l = l := by
  unfold padStart2Chars
  rw [if_neg (by omega)]

theorem foldl_registerModal_modals (ids : List String) (st : ManagerState) :
    (ids.foldl registerModal st).modals = buildModals ids st.modals := by
  induction ids generalizing st with
  | nil => rfl
  | cons i rest ih =>
      rw [List.foldl_cons, ih]
      rfl

theorem foldl_registerModal_listeners (ids : List String) (st : ManagerState) :
    (ids.foldl registerModal st).listeners = st.listeners ++ allModalListeners ids := by
  induction ids generalizing st with
  | nil => simp [allModalListeners]
  | cons i rest ih =>
      rw [List.foldl_cons, ih]
      simp [registerModal, allModalListeners, List.append_assoc]

theorem initializeModals_modals (ids : List String) (st : ManagerState) :
    (initializeModals ids st).modals = buildModals ids [] := by
  unfold initializeModals
  rw [foldl_registerModal_modals]
  rfl

theorem initializeModals_listeners (ids : List String) (st : ManagerState) :
    (initializeModals ids st).listeners = st.listeners ++ allModalListeners ids := by
  unfold initializeModals
  rw [foldl_registerModal_listeners]
  rfl

/-! ## Claims -/

/-- C1 (code_bug evidence). The claim says that after any sequence of
open/close operations at most one backdrop node exists. In the
emergency modal fix of `src/unnamed/part_000`, every trigger click
appends a fresh backdrop without checking for an existing one, and
`closeModal` removes only the first backdrop; so after two consecutive
trigger clicks (for instance a double-click on the trigger, which
dispatches two click events) two backdrop nodes are in the document,
and the following close still leaves one behind. -/
theorem c1_double_trigger_two_backdrops :
    (emergencyRun [EmergencyOp.triggerClick, EmergencyOp.triggerClick]).backdrops = 2 ∧
    ¬ (emergencyRun [EmergencyOp.triggerClick, EmergencyOp.triggerClick]).backdrops ≤ 1 ∧
    (emergencyStep (emergencyRun [EmergencyOp.triggerClick, EmergencyOp.triggerClick])
        EmergencyOp.closeClick).backdrops = 1 := by
  decide

/-- C2 (counterexample). The claim quantifies over every candidate
list and every query of length at least 2 and asserts truncation to
the first 10 matches; `InterviewAutocomplete.showSuggestions` has no
truncation, so with eleven matching candidates and the length-2 query
"ab" it computes eleven matches, not the first ten. -/
theorem c2_counterexample :
    2 ≤ ("ab" : String).length ∧
    interviewFiltered (List.replicate 11 "ab") "ab"
      ≠ specMatches (List.replicate 11 "ab") "ab" ∧
    (interviewFiltered (List.replicate 11 "ab") "ab").length = 11 := by
  decide

/-- C2 (amended). For the location autocomplete, the computed match
list is exactly the spec's description: candidates whose lowercase
form contains the lowercase query, in candidate-list order (a sublist
of the candidates), truncated to the first 10; and the two quoted
examples hold, including that a length-1 query shows nothing. The
interview autocomplete computes the same case-insensitive substring
filter but without the truncation to 10. -/
theorem c2_matching_per_implementation (cands : List String) (q : String) :
    locationMatches cands (strToLower q) = specMatches cands q ∧
    List.Sublist (specMatches cands q) cands ∧
    (specMatches cands q).length ≤ 10 ∧
    (∀ c ∈ specMatches cands q, strIncludes (strToLower c) (strToLower q) = true) ∧
    interviewFiltered cands q
      = cands.filter (fun c => strIncludes (strToLower c) (strToLower q)) ∧
    specMatches ["United States", "United Kingdom"] "uni"
      = ["United States", "United Kingdom"] ∧
    specMatches ["United States", "United Kingdom"] "kingdom"
      = ["United Kingdom"] ∧
    countryInputView ["United States", "United Kingdom"] "uni"
      = DropdownView.shown ["United States", "United Kingdom"] ∧
    countryInputView ["United States", "United Kingdom"] "kingdom"
      = DropdownView.shown ["United Kingdom"] ∧
    countryInputView ["United States", "United Kingdom"] "u" = DropdownView.hidden := by
  refine ⟨rfl, List.Sublist.trans (List.take_sublist _ _) (List.filter_sublist _),
    List.length_take_le _ _, ?_, rfl, by decide, by decide, by decide, by decide, by decide⟩
  intro c hc
  simp only [specMatches] at hc
  exact (List.mem_filter.mp (List.mem_of_mem_take hc)).2

/-- C3 (counterexample). The claim says every typeahead input treats a
query of length 1 as having no matches and hides the list;
`InterviewAutocomplete.showSuggestions` only hides for the empty
query, so the length-1 query "j" over the topic suggestions shows a
match. -/
theorem c3_counterexample :
    ("j" : String).length < 2 ∧
    interviewView ["Java", "Python"] "j" = DropdownView.shown ["Java"] := by
  decide

/-- C3 (amended). The location autocomplete inputs (country and city)
hide the suggestion list for every query of length less than 2 without
computing matches; the interview autocomplete hides it only for the
empty query. -/
theorem c3_short_query_hidden (ctb : List (String × List String))
    (cands sugg : List String) (countryVal v : String) (h : v.length < 2) :
    countryInputView cands v = DropdownView.hidden ∧
    cityInputView ctb countryVal v = DropdownView.hidden ∧
    interviewView sugg "" = DropdownView.hidden := by
  have hlen : (strToLower v).length < 2 := by rw [strToLower_length]; exact h
  refine ⟨?_, ?_, ?_⟩
  · unfold countryInputView
    rw [if_pos hlen]
  · unfold cityInputView
    rw [if_pos hlen]
  · have hv : ((strToLower "") == "") = true := by decide
    unfold interviewView
    simp [hv]

/-- C3 witness: concrete instance of `c3_short_query_hidden` at the
length-1 query "u". -/
theorem c3_short_query_hidden_witness :
    ("u" : String).length < 2 ∧
    (countryInputView ["United States", "United Kingdom"] "u" = DropdownView.hidden ∧
     cityInputView [("Canada", ["Toronto"])] "Canada" "u" = DropdownView.hidden ∧
     interviewView ["Java"] "" = DropdownView.hidden) :=
  ⟨by decide,
   c3_short_query_hidden [("Canada", ["Toronto"])] ["United States", "United Kingdom"]
     ["Java"] "Canada" "u" (by decide)⟩

/-- C4 (confirmed). For an identifier absent from the registry,
`ModalManager.show` only appends the warning (the registry, the DOM
listeners, the backdrops and the body state are untouched), and
`ModalManager.hide` changes nothing at all. Neither throws: both are
total functions of the state. -/
theorem c4_unknown_id_noop (st : ManagerState) (id : String)
    (h : alistLookup st.modals id = none) :
    mmShow st id = { st with warnings := st.warnings ++ ["Modal not found: " ++ id] } ∧
    (mmShow st id).modals = st.modals ∧
    (mmShow st id).listeners = st.listeners ∧
    (mmShow st id).backdrops = st.backdrops ∧
    (mmShow st id).bodyModalOpen = st.bodyModalOpen ∧
    mmHide st id = st := by
  unfold mmShow mmHide
  rw [h]
  exact ⟨rfl, rfl, rfl, rfl, rfl, rfl⟩

/-- C4 witness: concrete instance of `c4_unknown_id_noop` on a page
with one registered modal and an unknown identifier. -/
theorem c4_unknown_id_noop_witness :
    alistLookup sampleRegistry.modals "missingModal" = none ∧
    (mmShow sampleRegistry "missingModal"
        = { sampleRegistry with
              warnings := sampleRegistry.warnings ++ ["Modal not found: " ++ "missingModal"] } ∧
     (mmShow sampleRegistry "missingModal").modals = sampleRegistry.modals ∧
     (mmShow sampleRegistry "missingModal").listeners = sampleRegistry.listeners ∧
     (mmShow sampleRegistry "missingModal").backdrops = sampleRegistry.backdrops ∧
     (mmShow sampleRegistry "missingModal").bodyModalOpen = sampleRegistry.bodyModalOpen ∧
     mmHide sampleRegistry "missingModal" = sampleRegistry) :=
  ⟨by decide, c4_unknown_id_noop sampleRegistry "missingModal" (by decide)⟩

/-- C5 (counterexample). The claim says clicking a country suggestion
always clears the dependent city input; the suggestion click handler
of `showDropdownWithDebug` in `src/modal-fix.js` commits the text and
closes the list but leaves the city input's value ("Paris") in place. -/
theorem c5_counterexample :
    (selectCountrySuggestionDebug parisState "Canada").countryValue = "Canada" ∧
    (selectCountrySuggestionDebug parisState "Canada").countryListOpen = false ∧
    (selectCountrySuggestionDebug parisState "Canada").cityValue = "Paris" ∧
    "Paris" ≠ "" := by
  decide

/-- C5 (amended). In the location autocomplete of
`src/unnamed/part_003`, clicking a country suggestion commits its text
into the country input, closes the list, and clears the dependent city
input (and the `currentCity` global); in the debug implementation of
`src/modal-fix.js`, the click commits the text and closes the list but
leaves the city input's value unchanged. -/
theorem c5_selection_effects (st : LocationFormState) (m : String) :
    (selectCountrySuggestion st m).countryValue = m ∧
    (selectCountrySuggestion st m).cityValue = "" ∧
    (selectCountrySuggestion st m).currentCity = "" ∧
    (selectCountrySuggestion st m).countryListOpen = false ∧
    (selectCountrySuggestionDebug st m).countryValue = m ∧
    (selectCountrySuggestionDebug st m).cityValue = st.cityValue ∧
    (selectCountrySuggestionDebug st m).countryListOpen = false :=
  ⟨rfl, rfl, rfl, rfl, rfl, rfl, rfl⟩

/-- C6 (counterexample). Running the registration scan twice yields
the same number of handles, but `cleanup` does not remove the DOM
event listeners that `attachEventListeners` added, so after two runs
the escape-key listener of modal "m1" is registered twice — it fires
twice for a single keydown while the dialog is shown — where one run
registers it once. -/
theorem c6_counterexample :
    (initializeModals ["m1"] (initializeModals ["m1"] managerInit)).modals.length
      = (initializeModals ["m1"] managerInit).modals.length ∧
    (initializeModals ["m1"] (initializeModals ["m1"] managerInit)).listeners.count
      ("m1", "keydown") = 2 ∧
    (initializeModals ["m1"] managerInit).listeners.count ("m1", "keydown") = 1 := by
  decide

/-- C6 (amended). Running `initializeModals` twice in succession
yields exactly the same registry as running it once (prior handles are
disposed first: the result is determined by the scanned ids alone),
but each run appends the full set of per-modal DOM listeners without
removing the previous ones, so after two runs every listener occurs
twice. -/
theorem c6_rescan_effects (ids : List String) (st : ManagerState) :
    (initializeModals ids (initializeModals ids st)).modals
      = (initializeModals ids st).modals ∧
    (initializeModals ids st).modals = buildModals ids [] ∧
    (initializeModals ids st).listeners = st.listeners ++ allModalListeners ids ∧
    (initializeModals ids (initializeModals ids st)).listeners
      = st.listeners ++ allModalListeners ids ++ allModalListeners ids := by
  refine ⟨?_, initializeModals_modals ids st, initializeModals_listeners ids st, ?_⟩
  · rw [initializeModals_modals, initializeModals_modals]
  · rw [initializeModals_listeners, initializeModals_listeners]

/-- C7 (counterexample). The claim says three typeahead input events
inside the debounce window trigger exactly one matching/render pass;
the country input handler of `src/unnamed/part_003` is not debounced,
so three input events run three passes. -/
theorem c7_counterexample :
    (countryRenderPasses ["United States", "United Kingdom"]
        ["un", "uni", "united s"]).length = 3 ∧
    countryRenderPasses ["United States", "United Kingdom"] ["un", "uni", "united s"]
      = [DropdownView.shown ["United States", "United Kingdom"],
         DropdownView.shown ["United States", "United Kingdom"],
         DropdownView.shown ["United States"]] := by
  decide

/-- C7 (amended). The combinator `InterviewApp.utils.debounce` does
have the claimed semantics: three calls within the window execute the
wrapped function exactly once, with the arguments of the last call
(each call cancels the pending timer — last-write-wins, no queuing).
But the typeahead input handlers are not wrapped in it: every input
event runs its own matching/render pass, one pass per event. -/
theorem c7_debounce_and_handler {α : Type} (a b c : α)
    (cands : List String) (values : List String) :
    debounceFired [DebounceEvent.call a, DebounceEvent.call b, DebounceEvent.call c,
      DebounceEvent.timerFire] none = [c] ∧
    (countryRenderPasses cands values).length = values.length :=
  ⟨rfl, by simp [countryRenderPasses]⟩

/-- C8 (counterexample). The claim quantifies over every service
worker in the repository; the EZ2Hire candidate service worker
(`src/sw-candidate.js`) registers no activate listener, so an
out-of-date cache store survives its activation unchanged. -/
theorem c8_counterexample :
    candidateActivate ["ez2hire-candidate-v0.9"] = ["ez2hire-candidate-v0.9"] ∧
    ("ez2hire-candidate-v0.9" : String) ≠ candidateCacheName ∧
    "activate" ∉ candidateRegisteredEvents := by
  decide

/-- C8 (amended). On activation, the Job2Hire service worker deletes
exactly the cache stores whose name differs from its `CACHE_NAME`
(a store survives iff it existed and is named `job2hire-v1.0.0`);
the EZ2Hire candidate and recruiter service workers register no
activate handler, so their activation deletes nothing. -/
theorem c8_activation_per_worker (cacheNames : List String) (n : String) :
    (n ∈ job2hireActivate cacheNames ↔ n ∈ cacheNames ∧ n = job2hireCacheName) ∧
    candidateActivate cacheNames = cacheNames ∧
    recruiterActivate cacheNames = cacheNames := by
  refine ⟨?_, rfl, rfl⟩
  simp [job2hireActivate, runActivate, job2hireActivateHandlers, job2hireActivateHandler,
    List.mem_filter]

/-- C9 (counterexample). "constructor" is nonempty and is not a key of
the map, yet the handler does not produce the all-cities fallback:
bracket access finds the inherited `Object.prototype.constructor`,
which is truthy, so the per-country branch is taken with a non-array
and `cities.filter` throws a `TypeError`. -/
theorem c9_counterexample :
    ("constructor" : String) ≠ "" ∧
    alistLookup sampleCityMap "constructor" = (none : Option (List String)) ∧
    cityCandidatesRun sampleCityMap "constructor"
      ≠ CityCandidatesResult.ok (allCities sampleCityMap) ∧
    cityCandidatesRun sampleCityMap "constructor" = CityCandidatesResult.typeError := by
  decide

/-- C9 (amended). If the country input's value is empty, or is neither
a key of the cities-by-country map nor the name of an inherited
`Object.prototype` property, the handler reaches `cities.filter` with
the flattened concatenation of all countries' city lists (in key
order), not the empty set. If the value is not a key but names an
inherited `Object.prototype` property, the bracket access is truthy,
the per-country branch is taken with a non-array, and `cities.filter`
throws a `TypeError`, so the fallback is never reached. On every
non-throwing run, the projection `cityCandidates` used by
`cityInputView` returns exactly the candidate set of the run. -/
theorem c9_city_fallback_and_proto_escape (ctb : List (String × List String))
    (sel : String) :
    (sel = "" ∨ (alistLookup ctb sel = none ∧ sel ∉ objectProtoProps) →
      cityCandidatesRun ctb sel = CityCandidatesResult.ok (allCities ctb)) ∧
    (sel ≠ "" → alistLookup ctb sel = none → sel ∈ objectProtoProps →
      cityCandidatesRun ctb sel = CityCandidatesResult.typeError) ∧
    allCities ctb = (ctb.map Prod.snd).flatten ∧
    (∀ cs, cityCandidatesRun ctb sel = CityCandidatesResult.ok cs →
      cityCandidates ctb sel = cs) := by
  refine ⟨?_, ?_, allCities_eq_flatten ctb, ?_⟩
  · rintro (h | ⟨hlk, hnp⟩)
    · subst h
      simp [cityCandidatesRun]
    · by_cases hs : sel = ""
      · subst hs
        simp [cityCandidatesRun]
      · simp [cityCandidatesRun, jsGetProp, hlk, hnp, hs, JsPropValue.truthy]
  · intro hne hlk hp
    simp [cityCandidatesRun, jsGetProp, hlk, hp, hne, JsPropValue.truthy]
  · intro cs hcs
    by_cases hs : sel = ""
    · subst hs
      simp [cityCandidatesRun] at hcs
      simp [cityCandidates, hcs]
    · rcases hlk : alistLookup ctb sel with _ | cs'
      · by_cases hp : sel ∈ objectProtoProps
        · simp [cityCandidatesRun, jsGetProp, hlk, hp, hs, JsPropValue.truthy] at hcs
        · simp [cityCandidatesRun, jsGetProp, hlk, hp, hs, JsPropValue.truthy] at hcs
          simp [cityCandidates, hlk, hs, hcs]
      · simp [cityCandidatesRun, jsGetProp, hlk, hs, JsPropValue.truthy] at hcs
        simp [cityCandidates, hlk, hs, hcs]

/-- C9 witness: concrete instances of
`c9_city_fallback_and_proto_escape` — the unknown value "Atlantis"
falls back to all cities, while the inherited property name
"constructor" makes the handler throw. -/
theorem c9_city_fallback_and_proto_escape_witness :
    cityCandidatesRun sampleCityMap "Atlantis"
      = CityCandidatesResult.ok (allCities sampleCityMap) ∧
    cityCandidatesRun sampleCityMap "constructor" = CityCandidatesResult.typeError :=
  ⟨(c9_city_fallback_and_proto_escape sampleCityMap "Atlantis").1
      (Or.inr ⟨by decide, by decide⟩),
   (c9_city_fallback_and_proto_escape sampleCityMap "constructor").2.1
      (by decide) (by decide) (by decide)⟩

/-- C10 (counterexample). The two `formatTime` implementations differ
at 0 seconds (and at every input below 600 seconds): the one in
`src/main-fixed.js` zero-pads the minutes ("00:00"), the duplicate in
`src/unnamed/part_002` does not ("0:00"). -/
theorem c10_counterexample :
    formatTimeFixed 0 = "00:00" ∧
    formatTimeDup 0 = "0:00" ∧
    formatTimeFixed 0 ≠ formatTimeDup 0 ∧
    formatTimeFixed 65 = "01:05" ∧
    formatTimeDup 65 = "1:05" := by
  decide

/-- C10 (amended). The two implementations return the same string for
a non-negative integer number of seconds exactly when the minutes
component has at least two decimal digits, that is when
`600 ≤ seconds`; below that, the `src/main-fixed.js` version carries a
leading zero on the minutes and the duplicate does not. -/
theorem c10_formatTime_agree_iff (seconds : Nat) :
    formatTimeFixed seconds = formatTimeDup seconds ↔ 600 ≤ seconds := by
  have hiff : (600 ≤ seconds) ↔ 10 ≤ seconds / 60 := by omega
  rw [hiff]
  constructor
  · intro h
    by_contra hlt
    push_neg at hlt
    have hlen1 : (decReprAux (seconds / 60)).length = 1 :=
      decReprAux_length_eq_one _ (by omega)
    have hdata : formatTimeFixedChars seconds = formatTimeDupChars seconds := by
      unfold formatTimeFixed formatTimeDup at h
      injection h
    have hlen := congrArg List.length hdata
    simp only [formatTimeFixedChars, formatTimeDupChars, List.length_append,
      padStart2Chars_length, hlen1] at hlen
    omega
  · intro h
    have h2 : 2 ≤ (decReprAux (seconds / 60)).length :=
      decReprAux_length_ge_two _ h
    unfold formatTimeFixed formatTimeDup formatTimeFixedChars formatTimeDupChars
    rw [padStart2Chars_of_ge_two _ h2]

end Ez2source
